import Mathlib

/-!
Formal model of the OTP lifecycle manager and the room-scoped message relay
of the backend server (src/index.js and its variants under src/unnamed/),
with proofs of behavioral properties of the code.

Machine integers (JS numbers used as millisecond timestamps) are modelled as
Nat; the in-memory JS Map is modelled as a key-unique association list.
-/

/-- Record stored in the in-memory otpStore: src/index.js line 123 stores
an object with a stringified code and an absolute expiry timestamp. -/
structure OtpRecord where
  otp : String
  expiresAt : Nat
deriving Repr, DecidableEq

/-- The in-memory otpStore (a JS Map from email to OtpRecord), modelled as an
association list whose set operation keeps keys unique. -/
abbrev OtpStore := List (String × OtpRecord)

/-- Model of Map.get: first (and, by construction, only) binding for the key. -/
def OtpStore.get : OtpStore → String → Option OtpRecord
  | [], _ => none
  | (k, v) :: rest, email => if k == email then some v else OtpStore.get rest email

/-- Model of Map.delete: remove every binding of the key. -/
def OtpStore.delete (store : OtpStore) (email : String) : OtpStore :=
  store.filter (fun p => !(p.1 == email))

/-- Model of Map.set: overwrite any previous binding of the key. -/
def OtpStore.set (store : OtpStore) (email : String) (r : OtpRecord) : OtpStore :=
  OtpStore.delete store email ++ [(email, r)]

/-- Number of bindings a key has in the store (1 means a unique live record). -/
def OtpStore.countKey (store : OtpStore) (email : String) : Nat :=
  (store.filter (fun p => p.1 == email)).length

/-- Character class of the email regex in src/index.js line 77: any character
that is neither an at-sign nor ASCII whitespace. (JS \s also covers Unicode
spaces; all inputs considered in this development are ASCII.) -/
def isEmailChar (c : Char) : Bool :=
  !(c == '@' || c == ' ' || c == '\t' || c == '\n' || c == '\r' ||
    c == Char.ofNat 11 || c == Char.ofNat 12)

/-- Shallow model of isValidEmail from src/index.js line 77, the regex
matching one or more non-space non-at characters, an at-sign, then a domain
of non-space non-at characters containing a dot that is neither its first
nor its last character. -/
def isValidEmail (email : String) : Bool :=
  let cs := email.toList
  let loc := cs.takeWhile (fun c => !(c == '@'))
  match cs.dropWhile (fun c => !(c == '@')) with
  | '@' :: domain =>
      !loc.isEmpty && loc.all isEmailChar &&
      !domain.isEmpty && domain.all isEmailChar &&
      ((domain.drop 1).dropLast.any (fun c => c == '.'))
  | _ => false

/-- Caller-visible outcome of the /send-otp handler of src/index.js:
200 success, 400 invalid email, or 500 mailer failure. -/
inductive SendResult
  | ok
  | invalidEmail
  | notificationFailed
deriving Repr, DecidableEq

/-- Shallow embedding of the /send-otp handler, src/index.js lines 114-129.
The random draw and the mailer are external: the drawn code arrives as
otpNum and the mailer outcome as notifierOk.  The handler validates the
email, awaits the mailer, and only on mailer success stores the record with
expiry now + 10 minutes (send-then-store). -/
def sendOtpHandler (store : OtpStore) (now : Nat) (email : String)
    (otpNum : Nat) (notifierOk : Bool) : SendResult × OtpStore :=
  if email == "" || !(isValidEmail email) then
    (SendResult.invalidEmail, store)
  else if notifierOk then
    (SendResult.ok, OtpStore.set store email ⟨toString otpNum, now + 10 * 60 * 1000⟩)
  else
    (SendResult.notificationFailed, store)

/-- Shallow embedding of the /send-otp handler of src/unnamed/part_002 lines
60-68 (store-before-send variant).  Its notifier is the inline dummy sendOTP
of part_002 lines 46-49, which always resolves, so the handler has no
failure outcome: it stores the record (expiry now + 600000) and succeeds. -/
def sendOtpP2 (store : OtpStore) (now : Nat) (email : String)
    (otpNum : Nat) : SendResult × OtpStore :=
  if email == "" || !(isValidEmail email) then
    (SendResult.invalidEmail, store)
  else
    (SendResult.ok, OtpStore.set store email ⟨toString otpNum, now + 600000⟩)

/-- Caller-visible outcome of the /verify-otp handler of src/index.js: a 200
success or the single collapsed 400 failure (one branch for absent record,
expired record, and wrong code alike). -/
inductive VerifyResult
  | ok
  | invalidOrExpired
deriving Repr, DecidableEq

/-- Shallow embedding of the /verify-otp handler, src/index.js lines 132-140:
one short-circuit condition (no record, or past expiry, or code mismatch)
returns the collapsed failure leaving the store untouched; otherwise the
record is deleted and the handler succeeds. -/
def verifyOtp (store : OtpStore) (now : Nat) (email otp : String) :
    VerifyResult × OtpStore :=
  match OtpStore.get store email with
  | none => (VerifyResult.invalidOrExpired, store)
  | some r =>
    if r.expiresAt < now then (VerifyResult.invalidOrExpired, store)
    else if !(r.otp == otp) then (VerifyResult.invalidOrExpired, store)
    else (VerifyResult.ok, OtpStore.delete store email)

/-- Caller-visible outcome of the /verify-otp handler of src/unnamed/part_000
lines 245-275, which keeps the failure branches distinct. -/
inductive VResult
  | ok
  | badRequest
  | notFound
  | expired
  | mismatch
deriving Repr, DecidableEq

/-- Shallow embedding of the /verify-otp handler of src/unnamed/part_000
lines 245-275: it first validates the inputs, then distinguishes an absent
record, an expired record (deleted as a side effect), and a wrong code
(record kept), and deletes the record on success. -/
def verifyOtpV (store : OtpStore) (now : Nat) (email otp : String) :
    VResult × OtpStore :=
  if email == "" || !(isValidEmail email) || otp == "" then
    (VResult.badRequest, store)
  else
    match OtpStore.get store email with
    | none => (VResult.notFound, store)
    | some r =>
      if r.expiresAt < now then (VResult.expired, OtpStore.delete store email)
      else if !(r.otp == otp) then (VResult.mismatch, store)
      else (VResult.ok, OtpStore.delete store email)

/-- Shallow embedding of the expiry sweep body of src/unnamed/part_002 lines
37-42: one tick deletes every record whose expiresAt is strictly in the
past.  The 1-minute scheduling interval of the surrounding setInterval is
real time and is not modelled; only the effect of one tick is. -/
def sweep (store : OtpStore) (now : Nat) : OtpStore :=
  store.filter (fun p => !(decide (p.2.expiresAt < now)))

/-- Window length of the otpLimiter, src/index.js line 81. -/
def otpWindowMs : Nat := 60 * 60 * 1000

/-- Admission cap of the otpLimiter, src/index.js line 82. -/
def otpMax : Nat := 3

/-- State of one source's rate-limit window. -/
structure RateWindow where
  windowStart : Nat
  count : Nat
deriving Repr, DecidableEq

/-- Modelled from the spec: the fixed-window admission algorithm of the
external express-rate-limit collaborator is not in src/; this follows the
spec's description (start a fresh window when none exists or the current one
has elapsed, then admit while the count is below the cap).  Only the
constants otpWindowMs and otpMax come from src/index.js lines 80-91. -/
def admitStep (now : Nat) (w : Option RateWindow) : Bool × RateWindow :=
  let win := match w with
    | none => RateWindow.mk now 0
    | some v =>
        if otpWindowMs ≤ now - v.windowStart then RateWindow.mk now 0 else v
  if win.count < otpMax then (true, RateWindow.mk win.windowStart (win.count + 1))
  else (false, win)

/-- Run the rate limiter over a sequence of request times for one source,
returning each request's admission verdict. -/
def admitSeq : Option RateWindow → List Nat → List Bool
  | _, [] => []
  | w, t :: ts => (admitStep t w).1 :: admitSeq (some (admitStep t w).2) ts

/-- Room membership relation of the relay: which connection is in which room.
Modelled from the spec: the room bookkeeping itself lives in the external
socket.io library; the handler wiring below is from src/index.js. -/
abbrev Rooms := List (String × String)

/-- Model of socket.join inside the join_room handler, src/index.js lines
290-293: joining is idempotent (rooms are sets of sockets). -/
def joinRoom (rs : Rooms) (connId roomId : String) : Rooms :=
  if rs.contains (connId, roomId) then rs else (connId, roomId) :: rs

/-- Model of connection teardown, src/index.js lines 303-305: every
membership of the disconnecting socket is purged. -/
def disconnect (rs : Rooms) (connId : String) : Rooms :=
  rs.filter (fun p => !(p.1 == connId))

/-- Payload emitted by the send_message handler, src/index.js line 299. -/
structure Payload where
  message : String
  senderId : String
  timestamp : String
deriving Repr, DecidableEq

/-- Shallow embedding of the send_message handler, src/index.js lines
296-300: socket.to(roomId).emit delivers the payload once to every member
of the room except the sending socket.  The result lists the deliveries as
(recipient connection, payload) pairs. -/
def sendMessage (rs : Rooms) (sender roomId : String) (p : Payload) :
    List (String × Payload) :=
  (rs.filter (fun q => q.2 == roomId && !(q.1 == sender))).map (fun q => (q.1, p))

/-- Number of deliveries a given connection receives from one send. -/
def deliveriesTo (ds : List (String × Payload)) (connId : String) : Nat :=
  (ds.filter (fun d => d.1 == connId)).length

/-! Helper lemmas about the store model. -/

theorem get_delete_self (store : OtpStore) (email : String) :
    OtpStore.get (OtpStore.delete store email) email = none := by
  induction store with
  | nil => rfl
  | cons p rest ih =>
    obtain ⟨k, v⟩ := p
    simp only [OtpStore.delete, List.filter_cons] at ih ⊢
    cases hb : (k == email) with
    | true => simpa [hb] using ih
    | false => simpa [OtpStore.get, hb] using ih

theorem get_append_left_none (l₁ l₂ : OtpStore) (email : String)
    (h : OtpStore.get l₁ email = none) :
    OtpStore.get (l₁ ++ l₂) email = OtpStore.get l₂ email := by
  induction l₁ with
  | nil => rfl
  | cons p rest ih =>
    obtain ⟨k, v⟩ := p
    cases hb : (k == email) with
    | true => simp [OtpStore.get, hb] at h
    | false =>
      simp only [OtpStore.get, hb] at h
      simpa [OtpStore.get, hb] using ih h

theorem get_set_self (store : OtpStore) (email : String) (r : OtpRecord) :
    OtpStore.get (OtpStore.set store email r) email = some r := by
  unfold OtpStore.set
  rw [get_append_left_none _ _ _ (get_delete_self store email)]
  simp [OtpStore.get]

theorem filter_key_delete (store : OtpStore) (email : String) :
    (OtpStore.delete store email).filter (fun p => p.1 == email) = [] := by
  induction store with
  | nil => rfl
  | cons p rest ih =>
    obtain ⟨k, v⟩ := p
    simp only [OtpStore.delete, List.filter_cons] at ih ⊢
    cases hb : (k == email) with
    | true => simp [hb]
    | false => simp [hb]

theorem countKey_set_self (store : OtpStore) (email : String) (r : OtpRecord) :
    OtpStore.countKey (OtpStore.set store email r) email = 1 := by
  unfold OtpStore.countKey OtpStore.set
  rw [List.filter_append, filter_key_delete]
  simp

theorem isValidEmail_ne_empty {email : String} (h : isValidEmail email = true) :
    (email == "") = false := by
  cases hb : (email == "") with
  | true =>
    rw [show email = "" from eq_of_beq hb] at h
    exact absurd h (by decide)
  | false => rfl

/-- C1: after a successful issuance for identity I, the first verification
with the stored code at or before the expiry timestamp succeeds and deletes
the record, and any later verification with that same code hits the absent
record: the main handler returns its (collapsed) failure leaving the store
unchanged, and the variant handler returns notFound — the code is
single-use. -/
theorem otp_issue_verify_single_use (store : OtpStore) (now t₁ t₂ : Nat)
    (email : String) (otpNum : Nat)
    (hval : isValidEmail email = true)
    (hcode : toString otpNum ≠ "")
    (ht : t₁ ≤ now + 10 * 60 * 1000) :
    (sendOtpHandler store now email otpNum true).1 = SendResult.ok ∧
    verifyOtp (sendOtpHandler store now email otpNum true).2 t₁ email (toString otpNum) =
      (VerifyResult.ok,
        OtpStore.delete (sendOtpHandler store now email otpNum true).2 email) ∧
    verifyOtp (OtpStore.delete (sendOtpHandler store now email otpNum true).2 email)
        t₂ email (toString otpNum) =
      (VerifyResult.invalidOrExpired,
        OtpStore.delete (sendOtpHandler store now email otpNum true).2 email) ∧
    (verifyOtpV (OtpStore.delete (sendOtpHandler store now email otpNum true).2 email)
        t₂ email (toString otpNum)).1 = VResult.notFound := by
  have hne : (email == "") = false := isValidEmail_ne_empty hval
  have hsend : sendOtpHandler store now email otpNum true =
      (SendResult.ok, OtpStore.set store email ⟨toString otpNum, now + 10 * 60 * 1000⟩) := by
    simp [sendOtpHandler, hne, hval]
  rw [hsend]
  have hget := get_set_self store email ⟨toString otpNum, now + 10 * 60 * 1000⟩
  have hgd := get_delete_self (OtpStore.set store email
    ⟨toString otpNum, now + 10 * 60 * 1000⟩) email
  refine ⟨rfl, ?_, ?_, ?_⟩
  · simp [verifyOtp, hget, Nat.not_lt.mpr ht]
  · simp [verifyOtp, hgd]
  · simp [verifyOtpV, hne, hval, hcode, hgd]

/-- Witness for C1 at the spec's concrete scenario. -/
theorem otp_issue_verify_single_use_witness :
    (sendOtpHandler [] 0 "user@example.com" 482913 true).1 = SendResult.ok ∧
    verifyOtp (sendOtpHandler [] 0 "user@example.com" 482913 true).2 599000
        "user@example.com" (toString 482913) =
      (VerifyResult.ok,
        OtpStore.delete (sendOtpHandler [] 0 "user@example.com" 482913 true).2
          "user@example.com") ∧
    verifyOtp (OtpStore.delete (sendOtpHandler [] 0 "user@example.com" 482913 true).2
        "user@example.com") 600000 "user@example.com" (toString 482913) =
      (VerifyResult.invalidOrExpired,
        OtpStore.delete (sendOtpHandler [] 0 "user@example.com" 482913 true).2
          "user@example.com") ∧
    (verifyOtpV (OtpStore.delete (sendOtpHandler [] 0 "user@example.com" 482913 true).2
        "user@example.com") 600000 "user@example.com" (toString 482913)).1 =
      VResult.notFound :=
  otp_issue_verify_single_use [] 0 599000 600000 "user@example.com" 482913
    (by decide) (by decide) (by decide)

/-- Counterexample to C2 as stated: in the main /verify-otp handler
(src/index.js lines 132-140) a verification after expiry — even with the
matching code — returns the collapsed failure and the record is still in the
store afterwards; it is not deleted as a side effect. -/
theorem verify_expired_no_delete_cex :
    (1000 : Nat) < 2000 ∧
    verifyOtp [("a@b.c", ⟨"482913", 1000⟩)] 2000 "a@b.c" "482913" =
      (VerifyResult.invalidOrExpired, [("a@b.c", ⟨"482913", 1000⟩)]) ∧
    OtpStore.get
      (verifyOtp [("a@b.c", ⟨"482913", 1000⟩)] 2000 "a@b.c" "482913").2 "a@b.c" =
      some ⟨"482913", 1000⟩ := by
  refine ⟨by decide, by decide, by decide⟩

/-- C2 amended: a verification after expiry fails regardless of code
correctness in both handlers, but only the variant handler of
src/unnamed/part_000 fails with the distinct expired outcome and deletes the
record as a side effect; the main src/index.js handler returns its collapsed
failure and leaves the expired record in the store. -/
theorem verify_expired_behavior (store : OtpStore) (now : Nat)
    (email c : String) (r : OtpRecord)
    (hrec : OtpStore.get store email = some r)
    (hexp : r.expiresAt < now)
    (hval : isValidEmail email = true)
    (hc : c ≠ "") :
    verifyOtp store now email c = (VerifyResult.invalidOrExpired, store) ∧
    verifyOtpV store now email c = (VResult.expired, OtpStore.delete store email) := by
  have hne : (email == "") = false := isValidEmail_ne_empty hval
  constructor
  · simp [verifyOtp, hrec, hexp]
  · simp [verifyOtpV, hne, hval, hc, hrec, hexp]

/-- Witness for the amended C2, with a wrong candidate code to exhibit the
independence from code correctness. -/
theorem verify_expired_behavior_witness :
    verifyOtp [("a@b.c", ⟨"482913", 1000⟩)] 2000 "a@b.c" "000000" =
      (VerifyResult.invalidOrExpired, [("a@b.c", ⟨"482913", 1000⟩)]) ∧
    verifyOtpV [("a@b.c", ⟨"482913", 1000⟩)] 2000 "a@b.c" "000000" =
      (VResult.expired, OtpStore.delete [("a@b.c", ⟨"482913", 1000⟩)] "a@b.c") :=
  verify_expired_behavior [("a@b.c", ⟨"482913", 1000⟩)] 2000 "a@b.c" "000000"
    ⟨"482913", 1000⟩ (by decide) (by decide) (by decide) (by decide)

/-- C3: in the main /send-otp handler (src/index.js lines 114-129) the record
is stored only after the mailer call succeeds, so a failed mailer call makes
the issuance fail with the notification failure and leaves the store exactly
as it was.  In the store-before-send variant of src/unnamed/part_002 the
inline notifier always succeeds, so that handler never reports a
notification failure (its issuance for a valid email always succeeds). -/
theorem send_then_store_on_failure (store : OtpStore) (now : Nat)
    (email : String) (otpNum : Nat)
    (hval : isValidEmail email = true) :
    sendOtpHandler store now email otpNum false =
      (SendResult.notificationFailed, store) ∧
    (sendOtpP2 store now email otpNum).1 = SendResult.ok := by
  have hne : (email == "") = false := isValidEmail_ne_empty hval
  constructor
  · simp [sendOtpHandler, hne, hval]
  · simp [sendOtpP2, hne, hval]

/-- Witness for C3. -/
theorem send_then_store_on_failure_witness :
    sendOtpHandler [] 0 "user@example.com" 482913 false =
      (SendResult.notificationFailed, []) ∧
    (sendOtpP2 [] 0 "user@example.com" 482913).1 = SendResult.ok :=
  send_then_store_on_failure [] 0 "user@example.com" 482913 (by decide)

/-- C4: issuing a second OTP for the same identity overwrites the first
record: afterwards exactly one binding for the identity is live, its code is
the newest one, the old code fails verification (store unchanged) and the
newest code verifies successfully. -/
theorem otp_overwrite_latest_wins (store : OtpStore) (now₁ now₂ t : Nat)
    (email : String) (n₁ n₂ : Nat)
    (hval : isValidEmail email = true)
    (hne : toString n₁ ≠ toString n₂)
    (ht : t ≤ now₂ + 10 * 60 * 1000) :
    OtpStore.get
      (sendOtpHandler (sendOtpHandler store now₁ email n₁ true).2 now₂ email n₂ true).2
      email = some ⟨toString n₂, now₂ + 10 * 60 * 1000⟩ ∧
    OtpStore.countKey
      (sendOtpHandler (sendOtpHandler store now₁ email n₁ true).2 now₂ email n₂ true).2
      email = 1 ∧
    verifyOtp
      (sendOtpHandler (sendOtpHandler store now₁ email n₁ true).2 now₂ email n₂ true).2
      t email (toString n₁) =
      (VerifyResult.invalidOrExpired,
        (sendOtpHandler (sendOtpHandler store now₁ email n₁ true).2 now₂ email n₂ true).2) ∧
    verifyOtp
      (sendOtpHandler (sendOtpHandler store now₁ email n₁ true).2 now₂ email n₂ true).2
      t email (toString n₂) =
      (VerifyResult.ok,
        OtpStore.delete
          (sendOtpHandler (sendOtpHandler store now₁ email n₁ true).2 now₂ email n₂ true).2
          email) := by
  have hne' : (email == "") = false := isValidEmail_ne_empty hval
  have hsend : ∀ (s : OtpStore) (m k : Nat), (sendOtpHandler s m email k true).2 =
      OtpStore.set s email ⟨toString k, m + 10 * 60 * 1000⟩ := by
    intro s m k
    simp [sendOtpHandler, hne', hval]
  rw [hsend, hsend]
  have hget := get_set_self (OtpStore.set store email
    ⟨toString n₁, now₁ + 10 * 60 * 1000⟩) email ⟨toString n₂, now₂ + 10 * 60 * 1000⟩
  have hmm : (toString n₂ == toString n₁) = false :=
    beq_eq_false_iff_ne.mpr (Ne.symm hne)
  refine ⟨hget, countKey_set_self _ _ _, ?_, ?_⟩
  · simp [verifyOtp, hget, Nat.not_lt.mpr ht, hmm]
  · simp [verifyOtp, hget, Nat.not_lt.mpr ht]

/-- Witness for C4. -/
theorem otp_overwrite_latest_wins_witness :
    OtpStore.get
      (sendOtpHandler (sendOtpHandler [] 0 "a@b.c" 111111 true).2 1 "a@b.c" 222222 true).2
      "a@b.c" = some ⟨toString 222222, 1 + 10 * 60 * 1000⟩ ∧
    OtpStore.countKey
      (sendOtpHandler (sendOtpHandler [] 0 "a@b.c" 111111 true).2 1 "a@b.c" 222222 true).2
      "a@b.c" = 1 ∧
    verifyOtp
      (sendOtpHandler (sendOtpHandler [] 0 "a@b.c" 111111 true).2 1 "a@b.c" 222222 true).2
      2 "a@b.c" (toString 111111) =
      (VerifyResult.invalidOrExpired,
        (sendOtpHandler (sendOtpHandler [] 0 "a@b.c" 111111 true).2 1 "a@b.c" 222222 true).2) ∧
    verifyOtp
      (sendOtpHandler (sendOtpHandler [] 0 "a@b.c" 111111 true).2 1 "a@b.c" 222222 true).2
      2 "a@b.c" (toString 222222) =
      (VerifyResult.ok,
        OtpStore.delete
          (sendOtpHandler (sendOtpHandler [] 0 "a@b.c" 111111 true).2 1 "a@b.c" 222222 true).2
          "a@b.c") :=
  otp_overwrite_latest_wins [] 0 1 2 "a@b.c" 111111 222222
    (by decide) (by decide) (by decide)

/-- C5: before expiry, a wrong code fails verification and leaves the record
untouched in both handlers (the variant answers with the distinct mismatch
outcome), so the correct code still succeeds afterwards. -/
theorem otp_mismatch_retry (store : OtpStore) (t₁ t₂ : Nat)
    (email w : String) (r : OtpRecord)
    (hrec : OtpStore.get store email = some r)
    (h₁ : t₁ ≤ r.expiresAt) (h₂ : t₂ ≤ r.expiresAt)
    (hw : w ≠ r.otp)
    (hval : isValidEmail email = true)
    (hwne : w ≠ "") :
    verifyOtp store t₁ email w = (VerifyResult.invalidOrExpired, store) ∧
    verifyOtpV store t₁ email w = (VResult.mismatch, store) ∧
    verifyOtp store t₂ email r.otp = (VerifyResult.ok, OtpStore.delete store email) := by
  have hne : (email == "") = false := isValidEmail_ne_empty hval
  have hmm : (r.otp == w) = false := beq_eq_false_iff_ne.mpr (Ne.symm hw)
  refine ⟨?_, ?_, ?_⟩
  · simp [verifyOtp, hrec, Nat.not_lt.mpr h₁, hmm]
  · simp [verifyOtpV, hne, hval, hwne, hrec, Nat.not_lt.mpr h₁, hmm]
  · simp [verifyOtp, hrec, Nat.not_lt.mpr h₂]

/-- Witness for C5. -/
theorem otp_mismatch_retry_witness :
    verifyOtp [("a@b.c", ⟨"482913", 600000⟩)] 1000 "a@b.c" "111111" =
      (VerifyResult.invalidOrExpired, [("a@b.c", ⟨"482913", 600000⟩)]) ∧
    verifyOtpV [("a@b.c", ⟨"482913", 600000⟩)] 1000 "a@b.c" "111111" =
      (VResult.mismatch, [("a@b.c", ⟨"482913", 600000⟩)]) ∧
    verifyOtp [("a@b.c", ⟨"482913", 600000⟩)] 2000 "a@b.c"
        (OtpRecord.mk "482913" 600000).otp =
      (VerifyResult.ok, OtpStore.delete [("a@b.c", ⟨"482913", 600000⟩)] "a@b.c") :=
  otp_mismatch_retry [("a@b.c", ⟨"482913", 600000⟩)] 1000 2000 "a@b.c" "111111"
    ⟨"482913", 600000⟩ (by decide) (by decide) (by decide) (by decide) (by decide)
      (by decide)

/-- C6: with the configured window (1 hour) and cap (3) the limiter admits
the first three requests of a source, rejects the fourth request made while
the window begun at the first request has not elapsed, and admits again a
request made once the window has elapsed (for example 61 minutes after the
first). -/
theorem rate_limiter_three_per_hour (t₁ t₂ t₃ t₄ t₅ : Nat)
    (h₂ : t₂ - t₁ < otpWindowMs) (h₃ : t₃ - t₁ < otpWindowMs)
    (h₄ : t₄ - t₁ < otpWindowMs) (h₅ : otpWindowMs ≤ t₅ - t₁) :
    admitSeq none [t₁, t₂, t₃, t₄, t₅] = [true, true, true, false, true] := by
  have e₁ : admitStep t₁ none = (true, RateWindow.mk t₁ 1) := by
    simp [admitStep, otpMax]
  have e₂ : admitStep t₂ (some (RateWindow.mk t₁ 1)) = (true, RateWindow.mk t₁ 2) := by
    simp [admitStep, otpMax, Nat.not_le.mpr h₂]
  have e₃ : admitStep t₃ (some (RateWindow.mk t₁ 2)) = (true, RateWindow.mk t₁ 3) := by
    simp [admitStep, otpMax, Nat.not_le.mpr h₃]
  have e₄ : admitStep t₄ (some (RateWindow.mk t₁ 3)) = (false, RateWindow.mk t₁ 3) := by
    simp [admitStep, otpMax, Nat.not_le.mpr h₄]
  have e₅ : admitStep t₅ (some (RateWindow.mk t₁ 3)) = (true, RateWindow.mk t₅ 1) := by
    simp [admitStep, otpMax, h₅]
  simp [admitSeq, e₁, e₂, e₃, e₄, e₅]

/-- Witness for C6: requests at 0, 1, 2 and 3 ms, then one at 61 minutes. -/
theorem rate_limiter_three_per_hour_witness :
    admitSeq none [0, 1, 2, 3, 3660000] = [true, true, true, false, true] :=
  rate_limiter_three_per_hour 0 1 2 3 3660000
    (by decide) (by decide) (by decide) (by decide)

/-- C8: one tick of the expiry sweep keeps exactly the records whose expiry
has not passed: every record surviving the tick has its expiresAt at or
after now, and every such record of the store survives the tick. -/
theorem sweep_removes_expired (store : OtpStore) (now : Nat) :
    (∀ p : String × OtpRecord, p ∈ sweep store now → ¬ p.2.expiresAt < now) ∧
    (∀ p : String × OtpRecord, p ∈ store → ¬ p.2.expiresAt < now →
      p ∈ sweep store now) := by
  constructor
  · intro p hp
    have := (List.mem_filter.mp hp).2
    simpa using this
  · intro p hp hlive
    exact List.mem_filter.mpr ⟨hp, by simpa using hlive⟩

/-- Witness for C8: after a tick at time 10, the record that expired at time
5 is gone and the record expiring at time 20 is still present. -/
theorem sweep_removes_expired_witness :
    ("b@b.c", (⟨"222222", 20⟩ : OtpRecord)) ∈
      sweep [("a@b.c", ⟨"111111", 5⟩), ("b@b.c", ⟨"222222", 20⟩)] 10 ∧
    ¬ ("a@b.c", (⟨"111111", 5⟩ : OtpRecord)) ∈
      sweep [("a@b.c", ⟨"111111", 5⟩), ("b@b.c", ⟨"222222", 20⟩)] 10 :=
  ⟨(sweep_removes_expired [("a@b.c", ⟨"111111", 5⟩), ("b@b.c", ⟨"222222", 20⟩)] 10).2
      ("b@b.c", ⟨"222222", 20⟩) (by decide) (by decide),
    fun h =>
      absurd ((sweep_removes_expired
        [("a@b.c", ⟨"111111", 5⟩), ("b@b.c", ⟨"222222", 20⟩)] 10).1
        ("a@b.c", ⟨"111111", 5⟩) h) (by decide)⟩

theorem pair_pred_iff (q : String × String) (c r : String) :
    ((q.1 == c && q.2 == r) = true) ↔ q = (c, r) := by
  obtain ⟨a, b⟩ := q
  simp [Prod.ext_iff]

theorem deliveriesTo_sendMessage (rs : Rooms) (s roomId c : String) (p : Payload) :
    deliveriesTo (sendMessage rs s roomId p) c =
      (rs.filter (fun q => (q.2 == roomId && !(q.1 == s)) && q.1 == c)).length := by
  unfold deliveriesTo sendMessage
  rw [List.filter_map, List.length_map, List.filter_filter]
  congr 1
  apply List.filter_congr
  intro q _
  simp only [Function.comp_apply]
  rw [Bool.and_comm]

theorem filter_pair_unique (c r : String) :
    ∀ rs : Rooms, rs.Nodup → (c, r) ∈ rs →
      (rs.filter (fun q => q.1 == c && q.2 == r)).length = 1 := by
  intro rs
  induction rs with
  | nil => intro _ h; cases h
  | cons q rest ih =>
    intro hnd hmem
    rw [List.nodup_cons] at hnd
    rw [List.filter_cons]
    rcases List.mem_cons.mp hmem with heq | hmem'
    · have hq : (q.1 == c && q.2 == r) = true := (pair_pred_iff q c r).mpr heq.symm
      rw [hq]
      have hnil : rest.filter (fun q => q.1 == c && q.2 == r) = [] := by
        rw [List.filter_eq_nil_iff]
        intro a ha hpa
        exact hnd.1 (by rw [← heq]; exact (pair_pred_iff a c r).mp hpa ▸ ha)
      simp [hnil]
    · have hqne : (q.1 == c && q.2 == r) = false := by
        rw [Bool.eq_false_iff]
        intro hpa
        exact hnd.1 ((pair_pred_iff q c r).mp hpa ▸ hmem')
      rw [hqne]
      simp only [Bool.false_eq_true, if_false]
      exact ih hnd.2 hmem'

theorem relay_exclude_self_fanout (rs : Rooms) (sender roomId c b : String)
    (p : Payload)
    (hnd : rs.Nodup) (hc : c ≠ sender) (hmem : (c, roomId) ∈ rs) :
    deliveriesTo (sendMessage rs sender roomId p) sender = 0 ∧
    deliveriesTo (sendMessage rs sender roomId p) c = 1 ∧
    deliveriesTo (sendMessage (disconnect rs b) sender roomId p) b = 0 := by
  refine ⟨?_, ?_, ?_⟩
  · rw [deliveriesTo_sendMessage]
    have hnil : rs.filter
        (fun q => (q.2 == roomId && !(q.1 == sender)) && q.1 == sender) = [] := by
      rw [List.filter_eq_nil_iff]
      intro a _ hpa
      cases hs : (a.1 == sender) <;> simp [hs] at hpa
    simp [hnil]
  · rw [deliveriesTo_sendMessage]
    have hcongr : rs.filter (fun q => (q.2 == roomId && !(q.1 == sender)) && q.1 == c)
        = rs.filter (fun q => q.1 == c && q.2 == roomId) := by
      apply List.filter_congr
      intro q _
      by_cases h1 : q.1 = c
      · by_cases h2 : q.2 = roomId
        · rw [h1, h2]; simp [beq_eq_false_iff_ne.mpr hc]
        · simp [h1, beq_eq_false_iff_ne.mpr h2]
      · simp [beq_eq_false_iff_ne.mpr h1]
    rw [hcongr]
    exact filter_pair_unique c roomId rs hnd hmem
  · rw [deliveriesTo_sendMessage]
    have hnil : (disconnect rs b).filter
        (fun q => (q.2 == roomId && !(q.1 == sender)) && q.1 == b) = [] := by
      rw [List.filter_eq_nil_iff]
      intro a ha hpa
      have hb : ¬ a.1 = b := by
        have := (List.mem_filter.mp ha).2
        simpa using this
      simp [hb] at hpa
    simp [hnil]

theorem relay_witness :
    deliveriesTo
      (sendMessage (joinRoom (joinRoom (joinRoom [] "A" "R") "B" "R") "C" "R")
        "A" "R" ⟨"M", "A", "T"⟩) "A" = 0 ∧
    deliveriesTo
      (sendMessage (joinRoom (joinRoom (joinRoom [] "A" "R") "B" "R") "C" "R")
        "A" "R" ⟨"M", "A", "T"⟩) "B" = 1 ∧
    deliveriesTo
      (sendMessage
        (disconnect (joinRoom (joinRoom (joinRoom [] "A" "R") "B" "R") "C" "R") "B")
        "A" "R" ⟨"M", "A", "T"⟩) "B" = 0 :=
  relay_exclude_self_fanout
    (joinRoom (joinRoom (joinRoom [] "A" "R") "B" "R") "C" "R")
    "A" "R" "B" "B" ⟨"M", "A", "T"⟩ (by decide) (by decide) (by decide)

/-- Counterexample to C9 as stated: in the main /verify-otp handler of
src/index.js an absent record and a wrong code for a live record produce the
same caller-facing result, so the notFound and mismatch outcomes are not
distinguishable by the caller there. -/
theorem verify_errors_collapsed_cex :
    OtpStore.get [] "a@b.c" = none ∧
    OtpStore.get [("a@b.c", ⟨"222222", 1000⟩)] "a@b.c" = some ⟨"222222", 1000⟩ ∧
    ¬ (1000 : Nat) < 500 ∧
    ("222222" : String) ≠ "111111" ∧
    (verifyOtp [] 500 "a@b.c" "111111").1 =
      (verifyOtp [("a@b.c", ⟨"222222", 1000⟩)] 500 "a@b.c" "111111").1 := by
  refine ⟨by decide, by decide, by decide, by decide, by decide⟩

/-- C9 amended: the variant /verify-otp handler of src/unnamed/part_000
distinguishes its failure outcomes — an absent record, an expired record and
a wrong code yield three pairwise distinct results — while the main
src/index.js handler collapses all three failures into one result. -/
theorem verify_errors_variant_distinct (store : OtpStore) (now : Nat)
    (email c : String) (r : OtpRecord)
    (hval : isValidEmail email = true) (hc : c ≠ "") :
    (OtpStore.get store email = none →
      (verifyOtpV store now email c).1 = VResult.notFound) ∧
    (OtpStore.get store email = some r → r.expiresAt < now →
      (verifyOtpV store now email c).1 = VResult.expired) ∧
    (OtpStore.get store email = some r → ¬ r.expiresAt < now → r.otp ≠ c →
      (verifyOtpV store now email c).1 = VResult.mismatch) ∧
    VResult.notFound ≠ VResult.expired ∧
    VResult.notFound ≠ VResult.mismatch ∧
    VResult.expired ≠ VResult.mismatch := by
  have hne : (email == "") = false := isValidEmail_ne_empty hval
  refine ⟨?_, ?_, ?_, by decide, by decide, by decide⟩
  · intro hget
    simp [verifyOtpV, hne, hval, hc, hget]
  · intro hget hexp
    simp [verifyOtpV, hne, hval, hc, hget, hexp]
  · intro hget hexp hmm
    simp [verifyOtpV, hne, hval, hc, hget, hexp, beq_eq_false_iff_ne.mpr hmm]

/-- Witness for the amended C9. -/
theorem verify_errors_variant_distinct_witness :
    (OtpStore.get [("a@b.c", ⟨"222222", 1000⟩)] "a@b.c" = none →
      (verifyOtpV [("a@b.c", ⟨"222222", 1000⟩)] 500 "a@b.c" "111111").1 =
        VResult.notFound) ∧
    (OtpStore.get [("a@b.c", ⟨"222222", 1000⟩)] "a@b.c" = some ⟨"222222", 1000⟩ →
      (1000 : Nat) < 500 →
      (verifyOtpV [("a@b.c", ⟨"222222", 1000⟩)] 500 "a@b.c" "111111").1 =
        VResult.expired) ∧
    (OtpStore.get [("a@b.c", ⟨"222222", 1000⟩)] "a@b.c" = some ⟨"222222", 1000⟩ →
      ¬ (1000 : Nat) < 500 → ("222222" : String) ≠ "111111" →
      (verifyOtpV [("a@b.c", ⟨"222222", 1000⟩)] 500 "a@b.c" "111111").1 =
        VResult.mismatch) ∧
    VResult.notFound ≠ VResult.expired ∧
    VResult.notFound ≠ VResult.mismatch ∧
    VResult.expired ≠ VResult.mismatch :=
  verify_errors_variant_distinct [("a@b.c", ⟨"222222", 1000⟩)] 500 "a@b.c" "111111"
    ⟨"222222", 1000⟩ (by decide) (by decide)

/-- C10: the main /verify-otp handler performs no identity validation: any
email with no stored record — syntactically valid or not — gets the same
failure with the store unchanged, and the failure result is identical across
identities; only the /send-otp handler checks email syntax, rejecting a
malformed address before any mailer call or store write. -/
theorem verify_skips_email_validation (store₁ store₂ : OtpStore)
    (now₁ now₂ : Nat) (e₁ e₂ c₁ c₂ : String)
    (h₁ : OtpStore.get store₁ e₁ = none)
    (h₂ : OtpStore.get store₂ e₂ = none)
    (hinv : isValidEmail e₁ = false) :
    verifyOtp store₁ now₁ e₁ c₁ = (VerifyResult.invalidOrExpired, store₁) ∧
    (verifyOtp store₁ now₁ e₁ c₁).1 = (verifyOtp store₂ now₂ e₂ c₂).1 ∧
    (∀ (st : OtpStore) (now otpNum : Nat),
      sendOtpHandler st now e₁ otpNum true = (SendResult.invalidEmail, st)) := by
  refine ⟨by simp [verifyOtp, h₁], ?_, ?_⟩
  · simp [verifyOtp, h₁, h₂]
  · intro st now otpNum
    simp [sendOtpHandler, hinv]

/-- Witness for C10: a malformed identity and a well-formed one. -/
theorem verify_skips_email_validation_witness :
    verifyOtp [] 0 "not-an-email" "111111" = (VerifyResult.invalidOrExpired, []) ∧
    (verifyOtp [] 0 "not-an-email" "111111").1 =
      (verifyOtp [] 0 "a@b.c" "111111").1 ∧
    (∀ (st : OtpStore) (now otpNum : Nat),
      sendOtpHandler st now "not-an-email" otpNum true =
        (SendResult.invalidEmail, st)) :=
  verify_skips_email_validation [] [] 0 0 "not-an-email" "a@b.c" "111111" "111111"
    (by decide) (by decide) (by decide)
